import Mathlib

/-!
Verification of the single-layer → double-layer Minecraft skin converter
(`src/utils/converter.rs`) against its natural-language specification.

The converter is embedded shallowly:
* an image is a width, a height and a total pixel function `Nat → Nat → Rgba`
  (reads outside the stored buffer only ever happen on the zero-initialised
  output canvas, which the embedding represents by returning transparent
  black outside the written area);
* `f32` arithmetic (the HD ratio `width / 64.0`, the coordinate scaling in
  `scale_rect`, and the alpha compositing inside `image::imageops::overlay`)
  is modelled by exact rational arithmetic followed by the truncating cast,
  which coincides with the `f32` computation on all practically supported
  atlas sizes;
* the `image` crate operations used by the converter (`GenericImageView::view`
  + `to_image`, `imageops::flip_horizontal`, `imageops::overlay` with
  `Rgba::blend` alpha compositing, zero-initialised `ImageBuffer::new`) are
  embedded as the pure pixel-level functions they compute.
-/

namespace Eidolon

/-- An RGBA pixel with 8-bit channels (`image::Rgba<u8>`). -/
structure Rgba where
  r : Nat
  g : Nat
  b : Nat
  a : Nat
deriving DecidableEq, Repr

/-- The fully transparent black pixel, the content of a freshly allocated
zero-initialised `ImageBuffer`. -/
def Rgba.transparent : Rgba := ⟨0, 0, 0, 0⟩

/-- Model of `image::Rgba::blend` (src-over alpha compositing): the two
early returns for a fully transparent / fully opaque foreground, the
`alpha_final == 0` early return, and otherwise the premultiplied src-over
formula followed by the truncating cast back to `u8`.

The two early returns and the `alpha_final == 0` return are byte-exact
integer behaviour of the real code. The general branch replaces the `f32`
arithmetic by exact rationals, which is an idealisation: for a foreground
with `0 < alpha < 255` the real `f32` computation can truncate a colour
channel one below the exact value (e.g. channel 11 at alpha 3 over the
transparent canvas lands as 10 in `f32` but 11 here). Theorems in this file
about the values of blended pixels therefore restrict themselves to the
byte-exact branches (foreground alpha 0 or 255). -/
def Rgba.blend (bg fg : Rgba) : Rgba :=
  if fg.a = 0 then bg
  else if fg.a = 255 then fg
  else
    let maxT : ℚ := 255
    let bgA : ℚ := (bg.a : ℚ) / maxT
    let fgA : ℚ := (fg.a : ℚ) / maxT
    let alphaFinal : ℚ := bgA + fgA - bgA * fgA
    if alphaFinal = 0 then bg
    else
      let outR : ℚ := ((fg.r : ℚ) / maxT * fgA + (bg.r : ℚ) / maxT * bgA * (1 - fgA)) / alphaFinal
      let outG : ℚ := ((fg.g : ℚ) / maxT * fgA + (bg.g : ℚ) / maxT * bgA * (1 - fgA)) / alphaFinal
      let outB : ℚ := ((fg.b : ℚ) / maxT * fgA + (bg.b : ℚ) / maxT * bgA * (1 - fgA)) / alphaFinal
      ⟨⌊maxT * outR⌋₊, ⌊maxT * outG⌋₊, ⌊maxT * outB⌋₊, ⌊maxT * alphaFinal⌋₊⟩

/-- A decoded RGBA image: dimensions plus a total pixel function. -/
structure Image where
  width : Nat
  height : Nat
  pix : Nat → Nat → Rgba

/-- A rectangle `(x0, y0, x1, y1)` with `x1`/`y1` exclusive, the shape of the
`(u32, u32, u32, u32)` region constants of `converter.rs`. -/
structure Rect where
  x0 : Nat
  y0 : Nat
  x1 : Nat
  y1 : Nat
deriving DecidableEq, Repr

/-- Membership of a pixel coordinate in a (half-open) rectangle. -/
def inRect (r : Rect) (x y : Nat) : Prop :=
  r.x0 ≤ x ∧ x < r.x1 ∧ r.y0 ≤ y ∧ y < r.y1

instance (r : Rect) (x y : Nat) : Decidable (inRect r x y) := by
  unfold inRect; infer_instance

-- 64px right leg OFIB (outside, front, inside, back) source regions.
def RIGHT_LEG_OUTSIDE_RANGE : Rect := ⟨0, 20, 4, 32⟩

def RIGHT_LEG_TOP_FRONT_RANGE : Rect := ⟨4, 16, 8, 32⟩

def RIGHT_LEG_BUTTOM_RANGE : Rect := ⟨8, 16, 12, 20⟩

def RIGHT_LEG_INSIDE_RANGE : Rect := ⟨8, 20, 12, 32⟩

def RIGHT_LEG_BACK_RANGE : Rect := ⟨12, 20, 16, 32⟩

-- 64px left leg IFOB destination regions.
def LEFT_LEG_OUTSIDE_RANGE : Rect := ⟨24, 52, 28, 64⟩

def LEFT_LEG_TOP_FRONT_RANGE : Rect := ⟨20, 48, 24, 64⟩

def LEFT_LEG_BUTTOM_RANGE : Rect := ⟨24, 48, 28, 52⟩

def LEFT_LEG_INSIDE_RANGE : Rect := ⟨16, 52, 20, 64⟩

def LEFT_LEG_BACK_RANGE : Rect := ⟨28, 52, 32, 64⟩

-- 64px right arm OFIB source regions.
def RIGHT_ARM_OUTSIDE_RANGE : Rect := ⟨40, 20, 44, 32⟩

def RIGHT_ARM_TOP_RANGE : Rect := ⟨44, 16, 48, 20⟩

def RIGHT_ARM_FRONT_RANGE : Rect := ⟨44, 20, 48, 32⟩

def RIGHT_ARM_BUTTOM_RANGE : Rect := ⟨48, 16, 52, 20⟩

def RIGHT_ARM_INSIDE_RANGE : Rect := ⟨48, 20, 52, 32⟩

def RIGHT_ARM_BACK_RANGE : Rect := ⟨52, 20, 56, 32⟩

-- 64px left arm IFOB destination regions.
def LEFT_ARM_INSIDE_RANGE : Rect := ⟨32, 52, 36, 64⟩

def LEFT_ARM_TOP_RANGE : Rect := ⟨36, 48, 40, 52⟩

def LEFT_ARM_FRONT_RANGE : Rect := ⟨36, 52, 40, 64⟩

def LEFT_ARM_BUTTOM_RANGE : Rect := ⟨40, 48, 44, 52⟩

def LEFT_ARM_OUTSIDE_RANGE : Rect := ⟨40, 52, 44, 64⟩

def LEFT_ARM_BACK_RANGE : Rect := ⟨44, 52, 48, 64⟩

/-- `fn scale_rect(rect, hd_ratio) -> (rect.0 as f32 * hd_ratio) as u32, ...`:
each coordinate is multiplied by the HD ratio and truncated back to an
unsigned integer. The `f32` product is modelled by the exact rational
product; the `as u32` cast of a non-negative value is the floor. -/
def scale_rect (rect : Rect) (hd_ratio : ℚ) : Rect :=
  ⟨⌊(rect.x0 : ℚ) * hd_ratio⌋₊,
   ⌊(rect.y0 : ℚ) * hd_ratio⌋₊,
   ⌊(rect.x1 : ℚ) * hd_ratio⌋₊,
   ⌊(rect.y1 : ℚ) * hd_ratio⌋₊⟩

/-- `img.view(x, y, w, h).to_image()`: an owned copy of the `w × h`
sub-rectangle of `img` whose top-left corner is `(r.x0, r.y0)`. -/
def crop (img : Image) (r : Rect) : Image where
  width := r.x1 - r.x0
  height := r.y1 - r.y0
  pix := fun x y => img.pix (r.x0 + x) (r.y0 + y)

/-- `imageops::flip_horizontal`: reverse the column order, keep rows. -/
def flip_horizontal (img : Image) : Image where
  width := img.width
  height := img.height
  pix := fun x y => img.pix (img.width - 1 - x) y

/-- `imageops::overlay(&mut bottom, &top, ox, oy)`: alpha-blend `top` onto
`bottom` with its top-left corner at `(ox, oy)`, clipping the pasted region
to the bottom image's bounds. -/
def overlay (bottom top : Image) (ox oy : Nat) : Image where
  width := bottom.width
  height := bottom.height
  pix := fun x y =>
    if ox ≤ x ∧ x < ox + top.width ∧ x < bottom.width ∧
       oy ≤ y ∧ y < oy + top.height ∧ y < bottom.height then
      (bottom.pix x y).blend (top.pix (x - ox) (y - oy))
    else bottom.pix x y

/-- One pending overlay write: the (already flipped) patch and the
destination offset passed to `imageops::overlay`. -/
structure Op where
  top : Image
  ox : Nat
  oy : Nat

/-- Perform a sequence of overlay writes in order. -/
def applyOps (base : Image) (ops : List Op) : Image :=
  ops.foldl (fun acc o => overlay acc o.top o.ox o.oy) base

/-- `ImageBuffer::new(img.width(), img.width())` (zero-initialised) followed
by the base-copy double loop
`for y in 0..img.height { for x in 0..img.width { put_pixel(x, y, get_pixel(x, y)) } }`. -/
def baseCanvas (img : Image) : Image where
  width := img.width
  height := img.width
  pix := fun x y =>
    if x < img.width ∧ y < img.height then img.pix x y else Rgba.transparent

/-- The fixed error string returned when the 2:1 layout check fails. -/
def layoutErr : String :=
  "Input image is not a single-layer skin (width must be twice the height)."

/-- The eleven overlay writes of `single2double_image`, in source order:
the six left-arm sub-faces (outside, top, front, buttom, inside, back)
followed by the five left-leg sub-faces (top_front, buttom, inside, back,
outside). Each patch is the horizontally flipped crop of the corresponding
scaled right-limb source rectangle, pasted at the top-left corner of the
scaled left-limb destination rectangle. -/
def overlayOps (img : Image) : List Op :=
  let hd_ratio : ℚ := (img.width : ℚ) / 64
  let scale : Rect → Rect := fun rect => scale_rect rect hd_ratio
  let right_leg_outside_area := scale RIGHT_LEG_OUTSIDE_RANGE
  let right_leg_top_front_area := scale RIGHT_LEG_TOP_FRONT_RANGE
  let right_leg_buttom_area := scale RIGHT_LEG_BUTTOM_RANGE
  let right_leg_inside_area := scale RIGHT_LEG_INSIDE_RANGE
  let right_leg_back_area := scale RIGHT_LEG_BACK_RANGE
  let right_arm_outside_area := scale RIGHT_ARM_OUTSIDE_RANGE
  let right_arm_top_area := scale RIGHT_ARM_TOP_RANGE
  let right_arm_front_area := scale RIGHT_ARM_FRONT_RANGE
  let right_arm_buttom_area := scale RIGHT_ARM_BUTTOM_RANGE
  let right_arm_inside_area := scale RIGHT_ARM_INSIDE_RANGE
  let right_arm_back_area := scale RIGHT_ARM_BACK_RANGE
  let left_leg_outside_area := scale LEFT_LEG_OUTSIDE_RANGE
  let left_leg_top_front_area := scale LEFT_LEG_TOP_FRONT_RANGE
  let left_leg_buttom_area := scale LEFT_LEG_BUTTOM_RANGE
  let left_leg_inside_area := scale LEFT_LEG_INSIDE_RANGE
  let left_leg_back_area := scale LEFT_LEG_BACK_RANGE
  let left_arm_outside_area := scale LEFT_ARM_OUTSIDE_RANGE
  let left_arm_top_area := scale LEFT_ARM_TOP_RANGE
  let left_arm_front_area := scale LEFT_ARM_FRONT_RANGE
  let left_arm_buttom_area := scale LEFT_ARM_BUTTOM_RANGE
  let left_arm_inside_area := scale LEFT_ARM_INSIDE_RANGE
  let left_arm_back_area := scale LEFT_ARM_BACK_RANGE
  let right_leg_top_front := crop img right_leg_top_front_area
  let right_leg_buttom := crop img right_leg_buttom_area
  let right_leg_inside := crop img right_leg_inside_area
  let right_leg_back := crop img right_leg_back_area
  let right_leg_outside := crop img right_leg_outside_area
  let right_arm_top := crop img right_arm_top_area
  let right_arm_front := crop img right_arm_front_area
  let right_arm_buttom := crop img right_arm_buttom_area
  let right_arm_inside := crop img right_arm_inside_area
  let right_arm_back := crop img right_arm_back_area
  let right_arm_outside := crop img right_arm_outside_area
  let left_arm_outside := flip_horizontal right_arm_outside
  let left_arm_top := flip_horizontal right_arm_top
  let left_arm_front := flip_horizontal right_arm_front
  let left_arm_buttom := flip_horizontal right_arm_buttom
  let left_arm_inside := flip_horizontal right_arm_inside
  let left_arm_back := flip_horizontal right_arm_back
  let left_leg_outside := flip_horizontal right_leg_outside
  let left_leg_top_front := flip_horizontal right_leg_top_front
  let left_leg_buttom := flip_horizontal right_leg_buttom
  let left_leg_inside := flip_horizontal right_leg_inside
  let left_leg_back := flip_horizontal right_leg_back
  [ ⟨left_arm_outside, left_arm_outside_area.x0, left_arm_outside_area.y0⟩,
    ⟨left_arm_top, left_arm_top_area.x0, left_arm_top_area.y0⟩,
    ⟨left_arm_front, left_arm_front_area.x0, left_arm_front_area.y0⟩,
    ⟨left_arm_buttom, left_arm_buttom_area.x0, left_arm_buttom_area.y0⟩,
    ⟨left_arm_inside, left_arm_inside_area.x0, left_arm_inside_area.y0⟩,
    ⟨left_arm_back, left_arm_back_area.x0, left_arm_back_area.y0⟩,
    ⟨left_leg_top_front, left_leg_top_front_area.x0, left_leg_top_front_area.y0⟩,
    ⟨left_leg_buttom, left_leg_buttom_area.x0, left_leg_buttom_area.y0⟩,
    ⟨left_leg_inside, left_leg_inside_area.x0, left_leg_inside_area.y0⟩,
    ⟨left_leg_back, left_leg_back_area.x0, left_leg_back_area.y0⟩,
    ⟨left_leg_outside, left_leg_outside_area.x0, left_leg_outside_area.y0⟩ ]

/-- `pub fn single2double_image(img) -> Result<DynamicImage, String>`:
reject inputs whose width is not twice the height, otherwise allocate the
square canvas, copy the input into its top-left corner and perform the
eleven overlay writes in source order. -/
def single2double_image (img : Image) : Except String Image :=
  if img.width ≠ img.height * 2 then .error layoutErr
  else .ok (applyOps (baseCanvas img) (overlayOps img))

/-- The eleven scaled left-limb destination rectangles of the conversion. -/
def leftDestRects (img : Image) : List Rect :=
  let hd_ratio : ℚ := (img.width : ℚ) / 64
  [ scale_rect LEFT_ARM_OUTSIDE_RANGE hd_ratio,
    scale_rect LEFT_ARM_TOP_RANGE hd_ratio,
    scale_rect LEFT_ARM_FRONT_RANGE hd_ratio,
    scale_rect LEFT_ARM_BUTTOM_RANGE hd_ratio,
    scale_rect LEFT_ARM_INSIDE_RANGE hd_ratio,
    scale_rect LEFT_ARM_BACK_RANGE hd_ratio,
    scale_rect LEFT_LEG_TOP_FRONT_RANGE hd_ratio,
    scale_rect LEFT_LEG_BUTTOM_RANGE hd_ratio,
    scale_rect LEFT_LEG_INSIDE_RANGE hd_ratio,
    scale_rect LEFT_LEG_BACK_RANGE hd_ratio,
    scale_rect LEFT_LEG_OUTSIDE_RANGE hd_ratio ]

/-- The eleven (canonical source rectangle, canonical destination rectangle)
sub-face pairs the conversion mirrors, in overlay order. -/
def subFacePairs : List (Rect × Rect) :=
  [ (RIGHT_ARM_OUTSIDE_RANGE, LEFT_ARM_OUTSIDE_RANGE),
    (RIGHT_ARM_TOP_RANGE, LEFT_ARM_TOP_RANGE),
    (RIGHT_ARM_FRONT_RANGE, LEFT_ARM_FRONT_RANGE),
    (RIGHT_ARM_BUTTOM_RANGE, LEFT_ARM_BUTTOM_RANGE),
    (RIGHT_ARM_INSIDE_RANGE, LEFT_ARM_INSIDE_RANGE),
    (RIGHT_ARM_BACK_RANGE, LEFT_ARM_BACK_RANGE),
    (RIGHT_LEG_TOP_FRONT_RANGE, LEFT_LEG_TOP_FRONT_RANGE),
    (RIGHT_LEG_BUTTOM_RANGE, LEFT_LEG_BUTTOM_RANGE),
    (RIGHT_LEG_INSIDE_RANGE, LEFT_LEG_INSIDE_RANGE),
    (RIGHT_LEG_BACK_RANGE, LEFT_LEG_BACK_RANGE),
    (RIGHT_LEG_OUTSIDE_RANGE, LEFT_LEG_OUTSIDE_RANGE) ]

/-- Observe one pixel of a successful conversion. -/
def convertedPix (img : Image) (x y : Nat) : Option Rgba :=
  match single2double_image img with
  | .ok out => some (out.pix x y)
  | .error _ => none

/- ### Arithmetic and structural helper lemmas -/

/-- The scaled coordinate `⌊c · (w / 64)⌋` is the integer division `c·w / 64`. -/
lemma floor_scale (a w : Nat) : ⌊(a : ℚ) * ((w : ℚ) / 64)⌋₊ = a * w / 64 := by
  have h : (a : ℚ) * ((w : ℚ) / 64) = ((a * w : ℕ) : ℚ) / ((64 : ℕ) : ℚ) := by
    push_cast; ring
  rw [h, Nat.floor_div_eq_div]

lemma overlay_width (b t : Image) (ox oy : Nat) : (overlay b t ox oy).width = b.width := rfl

lemma overlay_height (b t : Image) (ox oy : Nat) : (overlay b t ox oy).height = b.height := rfl

lemma applyOps_width (ops : List Op) (base : Image) : (applyOps base ops).width = base.width := by
  induction ops generalizing base with
  | nil => rfl
  | cons o rest ih => simpa [applyOps] using ih (overlay base o.top o.ox o.oy)

lemma applyOps_height (ops : List Op) (base : Image) : (applyOps base ops).height = base.height := by
  induction ops generalizing base with
  | nil => rfl
  | cons o rest ih => simpa [applyOps] using ih (overlay base o.top o.ox o.oy)

/-- The condition under which an overlay write touches pixel `(x, y)` of a
bottom image with dimensions `W × H`. -/
def Op.writes (o : Op) (W H x y : Nat) : Prop :=
  o.ox ≤ x ∧ x < o.ox + o.top.width ∧ x < W ∧
  o.oy ≤ y ∧ y < o.oy + o.top.height ∧ y < H

lemma overlay_pix_hit (b t : Image) (ox oy x y : Nat)
    (h : Op.writes ⟨t, ox, oy⟩ b.width b.height x y) :
    (overlay b t ox oy).pix x y = (b.pix x y).blend (t.pix (x - ox) (y - oy)) :=
  if_pos h

lemma overlay_pix_skip (b t : Image) (ox oy x y : Nat)
    (h : ¬ Op.writes ⟨t, ox, oy⟩ b.width b.height x y) :
    (overlay b t ox oy).pix x y = b.pix x y :=
  if_neg h

/-- A pixel no overlay write touches keeps its base value. -/
lemma applyOps_pix_nowrites (x y : Nat) (ops : List Op) :
    ∀ base : Image, (∀ o ∈ ops, ¬ o.writes base.width base.height x y) →
      (applyOps base ops).pix x y = base.pix x y := by
  induction ops with
  | nil => intro base _; rfl
  | cons o rest ih =>
      intro base h
      have hbw : (overlay base o.top o.ox o.oy).width = base.width := rfl
      have hstep := ih (overlay base o.top o.ox o.oy) ?_
      · rw [applyOps, List.foldl_cons, ← applyOps, hstep,
          overlay_pix_skip _ _ _ _ _ _ (h o (List.mem_cons_self o rest))]
      · intro p hp
        rw [hbw, overlay_height]
        exact h p (List.mem_cons_of_mem o hp)

/-- A pixel touched by exactly one overlay write (`o`, with the writes
before it in `l1` and after it in `l2` all missing the pixel) ends up as the
base pixel blended with the corresponding patch pixel. -/
lemma applyOps_pix_split (base : Image) (l1 : List Op) (o : Op) (l2 : List Op) (x y : Nat)
    (h1 : ∀ p ∈ l1, ¬ p.writes base.width base.height x y)
    (h2 : ∀ p ∈ l2, ¬ p.writes base.width base.height x y)
    (ho : o.writes base.width base.height x y) :
    (applyOps base (l1 ++ o :: l2)).pix x y
      = (base.pix x y).blend (o.top.pix (x - o.ox) (y - o.oy)) := by
  have happ : applyOps base (l1 ++ o :: l2)
      = applyOps (overlay (applyOps base l1) o.top o.ox o.oy) l2 := by
    simp [applyOps, List.foldl_append]
  have hw1 : (applyOps base l1).width = base.width := applyOps_width l1 base
  have hh1 : (applyOps base l1).height = base.height := applyOps_height l1 base
  have h2b : ∀ p ∈ l2,
      ¬ p.writes (overlay (applyOps base l1) o.top o.ox o.oy).width
        (overlay (applyOps base l1) o.top o.ox o.oy).height x y := by
    intro p hp
    rw [overlay_width, overlay_height, hw1, hh1]
    exact h2 p hp
  have hob : Op.writes ⟨o.top, o.ox, o.oy⟩ (applyOps base l1).width (applyOps base l1).height x y := by
    rw [hw1, hh1]; exact ho
  rw [happ, applyOps_pix_nowrites x y l2 _ h2b,
    overlay_pix_hit _ _ _ _ _ _ hob, applyOps_pix_nowrites x y l1 base h1]

/-- Splitting a list at a valid index. -/
lemma list_split_at (l : List Op) (m : Nat) (h : m < l.length) :
    l = l.take m ++ l.get ⟨m, h⟩ :: l.drop (m + 1) := by
  conv_lhs => rw [← List.take_append_drop m l]
  rw [List.drop_eq_getElem_cons h]
  rfl

/-- Blending a fully transparent or fully opaque pixel over the transparent
background, through the byte-exact early-return branches only: a zero-alpha
foreground leaves the background, a fully opaque foreground lands
unchanged. -/
lemma blend_transparent_exact (p : Rgba) (h : p.a = 0 ∨ p.a = 255) :
    Rgba.blend Rgba.transparent p = if p.a = 0 then Rgba.transparent else p := by
  rcases h with h | h <;> simp [Rgba.blend, h]

/-- The eleven overlay writes with every scaled coordinate expressed as an
integer division, for direct arithmetic reasoning. -/
lemma overlayOps_div (img : Image) :
    overlayOps img =
    [ ⟨flip_horizontal (crop img ⟨40 * img.width / 64, 20 * img.width / 64,
          44 * img.width / 64, 32 * img.width / 64⟩),
        40 * img.width / 64, 52 * img.width / 64⟩,
      ⟨flip_horizontal (crop img ⟨44 * img.width / 64, 16 * img.width / 64,
          48 * img.width / 64, 20 * img.width / 64⟩),
        36 * img.width / 64, 48 * img.width / 64⟩,
      ⟨flip_horizontal (crop img ⟨44 * img.width / 64, 20 * img.width / 64,
          48 * img.width / 64, 32 * img.width / 64⟩),
        36 * img.width / 64, 52 * img.width / 64⟩,
      ⟨flip_horizontal (crop img ⟨48 * img.width / 64, 16 * img.width / 64,
          52 * img.width / 64, 20 * img.width / 64⟩),
        40 * img.width / 64, 48 * img.width / 64⟩,
      ⟨flip_horizontal (crop img ⟨48 * img.width / 64, 20 * img.width / 64,
          52 * img.width / 64, 32 * img.width / 64⟩),
        32 * img.width / 64, 52 * img.width / 64⟩,
      ⟨flip_horizontal (crop img ⟨52 * img.width / 64, 20 * img.width / 64,
          56 * img.width / 64, 32 * img.width / 64⟩),
        44 * img.width / 64, 52 * img.width / 64⟩,
      ⟨flip_horizontal (crop img ⟨4 * img.width / 64, 16 * img.width / 64,
          8 * img.width / 64, 32 * img.width / 64⟩),
        20 * img.width / 64, 48 * img.width / 64⟩,
      ⟨flip_horizontal (crop img ⟨8 * img.width / 64, 16 * img.width / 64,
          12 * img.width / 64, 20 * img.width / 64⟩),
        24 * img.width / 64, 48 * img.width / 64⟩,
      ⟨flip_horizontal (crop img ⟨8 * img.width / 64, 20 * img.width / 64,
          12 * img.width / 64, 32 * img.width / 64⟩),
        16 * img.width / 64, 52 * img.width / 64⟩,
      ⟨flip_horizontal (crop img ⟨12 * img.width / 64, 20 * img.width / 64,
          16 * img.width / 64, 32 * img.width / 64⟩),
        28 * img.width / 64, 52 * img.width / 64⟩,
      ⟨flip_horizontal (crop img ⟨0, 20 * img.width / 64,
          4 * img.width / 64, 32 * img.width / 64⟩),
        24 * img.width / 64, 52 * img.width / 64⟩ ] := by
  simp only [overlayOps, scale_rect, floor_scale,
    RIGHT_LEG_OUTSIDE_RANGE, RIGHT_LEG_TOP_FRONT_RANGE, RIGHT_LEG_BUTTOM_RANGE,
    RIGHT_LEG_INSIDE_RANGE, RIGHT_LEG_BACK_RANGE,
    RIGHT_ARM_OUTSIDE_RANGE, RIGHT_ARM_TOP_RANGE, RIGHT_ARM_FRONT_RANGE,
    RIGHT_ARM_BUTTOM_RANGE, RIGHT_ARM_INSIDE_RANGE, RIGHT_ARM_BACK_RANGE,
    LEFT_LEG_OUTSIDE_RANGE, LEFT_LEG_TOP_FRONT_RANGE, LEFT_LEG_BUTTOM_RANGE,
    LEFT_LEG_INSIDE_RANGE, LEFT_LEG_BACK_RANGE,
    LEFT_ARM_OUTSIDE_RANGE, LEFT_ARM_TOP_RANGE, LEFT_ARM_FRONT_RANGE,
    LEFT_ARM_BUTTOM_RANGE, LEFT_ARM_INSIDE_RANGE, LEFT_ARM_BACK_RANGE]
  norm_num

/-- The destination rectangles with coordinates as integer divisions. -/
lemma leftDestRects_div (img : Image) :
    leftDestRects img =
    [ ⟨40 * img.width / 64, 52 * img.width / 64, 44 * img.width / 64, img.width⟩,
      ⟨36 * img.width / 64, 48 * img.width / 64, 40 * img.width / 64, 52 * img.width / 64⟩,
      ⟨36 * img.width / 64, 52 * img.width / 64, 40 * img.width / 64, img.width⟩,
      ⟨40 * img.width / 64, 48 * img.width / 64, 44 * img.width / 64, 52 * img.width / 64⟩,
      ⟨32 * img.width / 64, 52 * img.width / 64, 36 * img.width / 64, img.width⟩,
      ⟨44 * img.width / 64, 52 * img.width / 64, 48 * img.width / 64, img.width⟩,
      ⟨20 * img.width / 64, 48 * img.width / 64, 24 * img.width / 64, img.width⟩,
      ⟨24 * img.width / 64, 48 * img.width / 64, 28 * img.width / 64, 52 * img.width / 64⟩,
      ⟨16 * img.width / 64, 52 * img.width / 64, 20 * img.width / 64, img.width⟩,
      ⟨28 * img.width / 64, 52 * img.width / 64, 32 * img.width / 64, img.width⟩,
      ⟨24 * img.width / 64, 52 * img.width / 64, 28 * img.width / 64, img.width⟩ ] := by
  simp only [leftDestRects, scale_rect, floor_scale,
    LEFT_LEG_OUTSIDE_RANGE, LEFT_LEG_TOP_FRONT_RANGE, LEFT_LEG_BUTTOM_RANGE,
    LEFT_LEG_INSIDE_RANGE, LEFT_LEG_BACK_RANGE,
    LEFT_ARM_OUTSIDE_RANGE, LEFT_ARM_TOP_RANGE, LEFT_ARM_FRONT_RANGE,
    LEFT_ARM_BUTTOM_RANGE, LEFT_ARM_INSIDE_RANGE, LEFT_ARM_BACK_RANGE]
  norm_num [Nat.div_self]

/-- Div-form of `scale_rect` at ratio `w / 64`. -/
lemma scale_rect_div (r : Rect) (w : Nat) :
    scale_rect r ((w : ℚ) / 64) =
      ⟨r.x0 * w / 64, r.y0 * w / 64, r.x1 * w / 64, r.y1 * w / 64⟩ := by
  simp [scale_rect, floor_scale]

lemma overlay_pix_out_d (b t : Image) (ox oy x y : Nat)
    (h : x < ox ∨ ox + t.width ≤ x ∨ y < oy ∨ oy + t.height ≤ y) :
    (overlay b t ox oy).pix x y = b.pix x y := by
  apply if_neg
  rintro ⟨h1, h2, h3, h4, h5, h6⟩
  rcases h with h | h | h | h <;> omega

lemma overlay_pix_hit_d (b t : Image) (ox oy x y : Nat)
    (h : ox ≤ x ∧ x < ox + t.width ∧ x < b.width ∧
         oy ≤ y ∧ y < oy + t.height ∧ y < b.height) :
    (overlay b t ox oy).pix x y = (b.pix x y).blend (t.pix (x - ox) (y - oy)) :=
  if_pos h

lemma baseCanvas_pix_out_d (img : Image) (x y : Nat)
    (h : img.width ≤ x ∨ img.height ≤ y) :
    (baseCanvas img).pix x y = Rgba.transparent := by
  simp only [baseCanvas]
  rw [if_neg]
  rintro ⟨hx, hy⟩
  rcases h with h | h <;> omega

/-- The scaled source rectangle of a sub-face pair on a given input. -/
def scaledSrc (img : Image) (p : Rect × Rect) : Rect :=
  scale_rect p.1 ((img.width : ℚ) / 64)

/-- The scaled destination rectangle of a sub-face pair on a given input. -/
def scaledDest (img : Image) (p : Rect × Rect) : Rect :=
  scale_rect p.2 ((img.width : ℚ) / 64)

/- ### Concrete test images -/

/-- A valid 64×32 single-layer input (all pixels transparent). -/
def img64 : Image := ⟨64, 32, fun _ _ => Rgba.transparent⟩

/-- An invalid square 10×10 input. -/
def imgSquare10 : Image := ⟨10, 10, fun _ _ => Rgba.transparent⟩

/-- An invalid square 12×12 input. -/
def imgSquare12 : Image := ⟨12, 12, fun _ _ => Rgba.transparent⟩

/- ### Claim theorems -/

/-- C2: for every input with `width = 2 × height`, every output pixel
`(x, y)` with `x < width` and `y < height` equals the input pixel — the
top-left `w × h` region of the output is pixel-identical to the input. -/
theorem C2_base_preservation (img : Image) (hv : img.width = 2 * img.height)
    (x y : Nat) (hx : x < img.width) (hy : y < img.height)
    (out : Image) (hout : single2double_image img = Except.ok out) :
    out.pix x y = img.pix x y := by
  rw [single2double_image, if_neg (by omega)] at hout
  obtain rfl : applyOps (baseCanvas img) (overlayOps img) = out := Except.ok.inj hout
  rw [overlayOps_div]
  refine (applyOps_pix_nowrites x y _ (baseCanvas img) ?_).trans ?_
  · intro o ho
    fin_cases ho <;>
      · simp only [Op.writes, flip_horizontal, crop, baseCanvas]
        omega
  · simp [baseCanvas, hx, hy]

/-- C2 witness: base preservation evaluated at the 64×32 test image. -/
theorem C2_base_preservation_witness :
    (applyOps (baseCanvas img64) (overlayOps img64)).pix 0 0 = img64.pix 0 0 :=
  C2_base_preservation img64 rfl 0 0 (by decide) (by decide)
    (applyOps (baseCanvas img64) (overlayOps img64))
    (by rw [single2double_image, if_neg (by decide)])

/-- C3: conversion succeeds iff `width = 2 × height`; in particular a
square (already double-layer) input of positive size is rejected with the
layout error rather than succeeding. -/
theorem C3_validation_iff (img : Image) :
    ((∃ out, single2double_image img = Except.ok out) ↔ img.width = img.height * 2) ∧
    (img.width = img.height → 0 < img.width →
      single2double_image img = Except.error layoutErr) := by
  constructor
  · constructor
    · rintro ⟨out, hout⟩
      by_contra hne
      rw [single2double_image, if_pos hne] at hout
      exact Except.noConfusion hout
    · intro he
      exact ⟨_, by rw [single2double_image, if_neg (by omega)]⟩
  · intro hsq hpos
    rw [single2double_image, if_pos (by omega)]

/-- C3 witness: the square 12×12 input is rejected, and the valid 64×32
input succeeds. -/
theorem C3_validation_iff_witness :
    single2double_image imgSquare12 = Except.error layoutErr ∧
    (∃ out, single2double_image img64 = Except.ok out) :=
  ⟨(C3_validation_iff imgSquare12).2 rfl (by decide),
   (C3_validation_iff img64).1.mpr rfl⟩

/-- C4: for every valid input of width `w`, the output is a `w × w`
square. -/
theorem C4_shape (img : Image) (hv : img.width = 2 * img.height) :
    ∃ out, single2double_image img = Except.ok out ∧
      out.width = img.width ∧ out.height = img.width := by
  refine ⟨applyOps (baseCanvas img) (overlayOps img), ?_, ?_, ?_⟩
  · rw [single2double_image, if_neg (by omega)]
  · rw [applyOps_width]; rfl
  · rw [applyOps_height]; rfl

/-- C4 witness: the 64×32 test image converts to a 64×64 square. -/
theorem C4_shape_witness :
    ∃ out, single2double_image img64 = Except.ok out ∧
      out.width = 64 ∧ out.height = 64 :=
  C4_shape img64 rfl

/-- Integer-ratio scaling: `a · (64k) / 64 = a · k`. -/
lemma mul64_div (a k : Nat) : a * (64 * k) / 64 = a * k := by
  rw [show a * (64 * k) = a * k * 64 by ring, Nat.mul_div_cancel _ (by norm_num)]

/-- C5: each coordinate of `scale_rect` is the rational floor
`⌊coordinate · w / 64⌋` (= the integer division `coordinate·w / 64`), and at
an integer HD ratio `k` the scaled rectangle's width and height are exactly
`k` times the canonical ones. -/
theorem C5_scaler (r : Rect) (w : Nat) (hw : 0 < w)
    (hx0 : r.x0 ≤ 64) (hy0 : r.y0 ≤ 64) (hx1 : r.x1 ≤ 64) (hy1 : r.y1 ≤ 64) :
    scale_rect r ((w : ℚ) / 64) =
      ⟨r.x0 * w / 64, r.y0 * w / 64, r.x1 * w / 64, r.y1 * w / 64⟩ ∧
    ∀ k : Nat, w = 64 * k →
      (scale_rect r ((w : ℚ) / 64)).x1 - (scale_rect r ((w : ℚ) / 64)).x0
          = k * (r.x1 - r.x0) ∧
      (scale_rect r ((w : ℚ) / 64)).y1 - (scale_rect r ((w : ℚ) / 64)).y0
          = k * (r.y1 - r.y0) := by
  have hs : scale_rect r ((w : ℚ) / 64) =
      ⟨r.x0 * w / 64, r.y0 * w / 64, r.x1 * w / 64, r.y1 * w / 64⟩ := by
    simp [scale_rect, floor_scale]
  refine ⟨hs, ?_⟩
  rintro k rfl
  rw [hs]
  constructor
  · show r.x1 * (64 * k) / 64 - r.x0 * (64 * k) / 64 = k * (r.x1 - r.x0)
    rw [mul64_div, mul64_div, ← Nat.sub_mul, mul_comm]
  · show r.y1 * (64 * k) / 64 - r.y0 * (64 * k) / 64 = k * (r.y1 - r.y0)
    rw [mul64_div, mul64_div, ← Nat.sub_mul, mul_comm]

/-- C5 witness: the right-arm outside rectangle at a 128-wide input
(HD ratio 2) scales to exactly twice its canonical coordinates. -/
theorem C5_scaler_witness :
    scale_rect RIGHT_ARM_OUTSIDE_RANGE (((128 : Nat) : ℚ) / 64) = ⟨80, 40, 88, 64⟩ ∧
    (scale_rect RIGHT_ARM_OUTSIDE_RANGE (((128 : Nat) : ℚ) / 64)).x1
      - (scale_rect RIGHT_ARM_OUTSIDE_RANGE (((128 : Nat) : ℚ) / 64)).x0 = 2 * 4 := by
  have h := C5_scaler RIGHT_ARM_OUTSIDE_RANGE 128 (by norm_num)
    (by decide) (by decide) (by decide) (by decide)
  have h2 := (h.2 2 (by norm_num)).1
  refine ⟨?_, ?_⟩
  · rw [h.1]; decide
  · rw [h2]; decide

/-- C6 counterexample: the conversion performs eleven overlay writes, not
twelve, even on a valid 64×32 input — the legs contribute five sub-faces
(top+front combined), not six. -/
theorem C6_counterexample :
    img64.width = 2 * img64.height ∧ (overlayOps img64).length ≠ 12 := by
  refine ⟨rfl, ?_⟩
  rw [overlayOps_div]
  decide

/-- C6 amended: the conversion performs exactly eleven overlay writes (six
arm sub-faces and five leg sub-faces), and the successful result is exactly
those writes folded, in order, over the base copy of the input — so every
overlay occurs after the base copy. -/
theorem C6_overlay_count (img : Image) (hv : img.width = 2 * img.height) :
    (overlayOps img).length = 11 ∧
    single2double_image img = Except.ok (applyOps (baseCanvas img) (overlayOps img)) := by
  refine ⟨?_, ?_⟩
  · rw [overlayOps_div]; rfl
  · rw [single2double_image, if_neg (by omega)]

/-- C6 witness: the count and structure at the 64×32 test image. -/
theorem C6_overlay_count_witness :
    (overlayOps img64).length = 11 ∧
    single2double_image img64 = Except.ok (applyOps (baseCanvas img64) (overlayOps img64)) :=
  C6_overlay_count img64 rfl

/-- C7 counterexample: two rejected inputs with different dimensions
(10×10 and 12×12) produce identical error values, so the failure value does
not carry the actual width and height — it is a fixed message. -/
theorem C7_counterexample :
    imgSquare10.width ≠ 2 * imgSquare10.height ∧
    imgSquare12.width ≠ 2 * imgSquare12.height ∧
    (imgSquare10.width, imgSquare10.height) ≠ (imgSquare12.width, imgSquare12.height) ∧
    single2double_image imgSquare10 = single2double_image imgSquare12 := by
  refine ⟨by decide, by decide, by decide, ?_⟩
  rw [single2double_image, single2double_image, if_pos (by decide), if_pos (by decide)]

/-- C7 amended: every input whose width is not twice its height is rejected
with the one fixed layout error string, independent of the dimensions. -/
theorem C7_fixed_error (img : Image) (hne : img.width ≠ img.height * 2) :
    single2double_image img = Except.error layoutErr := by
  rw [single2double_image, if_pos hne]

/-- C7 witness: the fixed error at the 10×10 input. -/
theorem C7_fixed_error_witness :
    single2double_image imgSquare10 = Except.error layoutErr :=
  C7_fixed_error imgSquare10 (by decide)

/- ### The path-based entry point `single2double` -/

/-- The eleven overlay writes as duplicated verbatim in the body of the
path-based `single2double` (the source repeats the entire conversion logic
of `single2double_image` inline instead of calling it). -/
def overlayOpsPath (img : Image) : List Op :=
  let hd_ratio : ℚ := (img.width : ℚ) / 64
  let scale : Rect → Rect := fun rect => scale_rect rect hd_ratio
  let right_leg_outside_area := scale RIGHT_LEG_OUTSIDE_RANGE
  let right_leg_top_front_area := scale RIGHT_LEG_TOP_FRONT_RANGE
  let right_leg_buttom_area := scale RIGHT_LEG_BUTTOM_RANGE
  let right_leg_inside_area := scale RIGHT_LEG_INSIDE_RANGE
  let right_leg_back_area := scale RIGHT_LEG_BACK_RANGE
  let right_arm_outside_area := scale RIGHT_ARM_OUTSIDE_RANGE
  let right_arm_top_area := scale RIGHT_ARM_TOP_RANGE
  let right_arm_front_area := scale RIGHT_ARM_FRONT_RANGE
  let right_arm_buttom_area := scale RIGHT_ARM_BUTTOM_RANGE
  let right_arm_inside_area := scale RIGHT_ARM_INSIDE_RANGE
  let right_arm_back_area := scale RIGHT_ARM_BACK_RANGE
  let left_leg_outside_area := scale LEFT_LEG_OUTSIDE_RANGE
  let left_leg_top_front_area := scale LEFT_LEG_TOP_FRONT_RANGE
  let left_leg_buttom_area := scale LEFT_LEG_BUTTOM_RANGE
  let left_leg_inside_area := scale LEFT_LEG_INSIDE_RANGE
  let left_leg_back_area := scale LEFT_LEG_BACK_RANGE
  let left_arm_outside_area := scale LEFT_ARM_OUTSIDE_RANGE
  let left_arm_top_area := scale LEFT_ARM_TOP_RANGE
  let left_arm_front_area := scale LEFT_ARM_FRONT_RANGE
  let left_arm_buttom_area := scale LEFT_ARM_BUTTOM_RANGE
  let left_arm_inside_area := scale LEFT_ARM_INSIDE_RANGE
  let left_arm_back_area := scale LEFT_ARM_BACK_RANGE
  let right_leg_top_front := crop img right_leg_top_front_area
  let right_leg_buttom := crop img right_leg_buttom_area
  let right_leg_inside := crop img right_leg_inside_area
  let right_leg_back := crop img right_leg_back_area
  let right_leg_outside := crop img right_leg_outside_area
  let right_arm_top := crop img right_arm_top_area
  let right_arm_front := crop img right_arm_front_area
  let right_arm_buttom := crop img right_arm_buttom_area
  let right_arm_inside := crop img right_arm_inside_area
  let right_arm_back := crop img right_arm_back_area
  let right_arm_outside := crop img right_arm_outside_area
  let left_arm_outside := flip_horizontal right_arm_outside
  let left_arm_top := flip_horizontal right_arm_top
  let left_arm_front := flip_horizontal right_arm_front
  let left_arm_buttom := flip_horizontal right_arm_buttom
  let left_arm_inside := flip_horizontal right_arm_inside
  let left_arm_back := flip_horizontal right_arm_back
  let left_leg_outside := flip_horizontal right_leg_outside
  let left_leg_top_front := flip_horizontal right_leg_top_front
  let left_leg_buttom := flip_horizontal right_leg_buttom
  let left_leg_inside := flip_horizontal right_leg_inside
  let left_leg_back := flip_horizontal right_leg_back
  [ ⟨left_arm_outside, left_arm_outside_area.x0, left_arm_outside_area.y0⟩,
    ⟨left_arm_top, left_arm_top_area.x0, left_arm_top_area.y0⟩,
    ⟨left_arm_front, left_arm_front_area.x0, left_arm_front_area.y0⟩,
    ⟨left_arm_buttom, left_arm_buttom_area.x0, left_arm_buttom_area.y0⟩,
    ⟨left_arm_inside, left_arm_inside_area.x0, left_arm_inside_area.y0⟩,
    ⟨left_arm_back, left_arm_back_area.x0, left_arm_back_area.y0⟩,
    ⟨left_leg_top_front, left_leg_top_front_area.x0, left_leg_top_front_area.y0⟩,
    ⟨left_leg_buttom, left_leg_buttom_area.x0, left_leg_buttom_area.y0⟩,
    ⟨left_leg_inside, left_leg_inside_area.x0, left_leg_inside_area.y0⟩,
    ⟨left_leg_back, left_leg_back_area.x0, left_leg_back_area.y0⟩,
    ⟨left_leg_outside, left_leg_outside_area.x0, left_leg_outside_area.y0⟩ ]

/-- The pure segment of the path-based `single2double` between a successful
decode and the final save: the layout check and the conversion, duplicated
verbatim from `single2double_image` as in the source. -/
def single2double_core (img : Image) : Except String Image :=
  if img.width ≠ img.height * 2 then .error layoutErr
  else .ok (applyOps (baseCanvas img) (overlayOpsPath img))

/-- The observable outcome of a call to the path-based entry point: either a
save of a fully constructed output atlas was attempted (the only write the
function ever performs on the output path), or the call failed before any
write to the output path was attempted. -/
inductive PathOutcome where
  | saved : Image → PathOutcome
  | failed : String → PathOutcome

/-- Models `pub fn single2double(input_path, output_path)` over the outcome
of decoding the input file: `image::open(input_path)` is modelled by the
`decoded` argument (`Except.error e` when the file cannot be read or
parsed), and the trailing `output_img.save(output_path)` is modelled by the
`saved` constructor, which the control flow reaches only after the complete
output atlas has been constructed in memory. -/
def single2double (decoded : Except String Image) : PathOutcome :=
  match decoded with
  | .error e => .failed ("Failed to open input image: " ++ e)
  | .ok img =>
    match single2double_core img with
    | .error e => .failed e
    | .ok out => .saved out

/-- The duplicated conversion body computes exactly the in-memory
conversion. -/
lemma single2double_core_eq (img : Image) :
    single2double_core img = single2double_image img := rfl

/-- C8: if decoding fails or the layout check fails, the path-based entry
point returns a failure without ever reaching the save, and a save, when it
is attempted, is of exactly the fully constructed conversion result. -/
theorem C8_atomicity :
    (∀ e : String, single2double (Except.error e)
        = PathOutcome.failed ("Failed to open input image: " ++ e)) ∧
    (∀ img : Image, img.width ≠ img.height * 2 →
        single2double (Except.ok img) = PathOutcome.failed layoutErr) ∧
    (∀ img out, single2double (Except.ok img) = PathOutcome.saved out →
        single2double_image img = Except.ok out) := by
  refine ⟨fun e => rfl, ?_, ?_⟩
  · intro img hne
    have hc : single2double_core img = Except.error layoutErr := by
      rw [single2double_core, if_pos hne]
    simp [single2double, hc]
  · intro img out h
    rcases hc : single2double_core img with e | res
    · simp [single2double, hc] at h
    · simp [single2double, hc] at h
      rw [← single2double_core_eq, hc, h]

/-- C8 witness: the square 10×10 input fails with no save attempted. -/
theorem C8_atomicity_witness :
    single2double (Except.ok imgSquare10) = PathOutcome.failed layoutErr :=
  C8_atomicity.2.1 imgSquare10 (by decide)

/-- C9: the conversion logic duplicated inside the path-based entry point
computes, pixel for pixel, the same function as the in-memory entry point
`single2double_image`, succeeding and failing on exactly the same decoded
inputs with the same result. -/
theorem C9_path_inmemory_equiv (img : Image) :
    single2double_core img = single2double_image img ∧
    ((∃ out, single2double_core img = Except.ok out) ↔
      (∃ out, single2double_image img = Except.ok out)) :=
  ⟨single2double_core_eq img, by rw [single2double_core_eq]⟩

/- ### C10: background transparency -/

lemma baseCanvas_width (img : Image) : (baseCanvas img).width = img.width := rfl

lemma baseCanvas_height (img : Image) : (baseCanvas img).height = img.width := rfl

/-- C10 amended: for valid inputs whose width is a multiple of 64 (integer
HD ratio), every output pixel in the bottom half (`y ≥ h`) lying outside all
eleven scaled left-limb destination rectangles is fully transparent
black. -/
theorem C10_background_transparent (k : Nat) (hk : 0 < k) (img : Image)
    (hw : img.width = 64 * k) (hh : img.height = 32 * k)
    (x y : Nat) (hy : img.height ≤ y)
    (houts : ∀ r ∈ leftDestRects img, ¬ inRect r x y)
    (out : Image) (hout : single2double_image img = Except.ok out) :
    out.pix x y = Rgba.transparent := by
  rw [single2double_image, if_neg (by omega)] at hout
  obtain rfl : applyOps (baseCanvas img) (overlayOps img) = out := Except.ok.inj hout
  rw [leftDestRects_div] at houts
  simp only [List.mem_cons, List.not_mem_nil, or_false, forall_eq_or_imp, forall_eq,
    inRect] at houts
  obtain ⟨h1, h2, h3, h4, h5, h6, h7, h8, h9, h10, h11⟩ := houts
  rw [overlayOps_div]
  refine (applyOps_pix_nowrites x y _ (baseCanvas img) ?_).trans ?_
  · intro o ho
    fin_cases ho <;>
      · simp only [Op.writes, flip_horizontal, crop, baseCanvas]
        omega
  · simp only [baseCanvas]
    rw [if_neg (by omega)]

/-- The concrete 6×3 input for the C10 counterexample: a single opaque red
pixel at `(4, 1)`, inside the scaled right-arm back source rectangle. -/
def imgC10 : Image :=
  ⟨6, 3, fun x y => if x = 4 ∧ y = 1 then ⟨255, 0, 0, 255⟩ else Rgba.transparent⟩

/-- C10 counterexample: on the valid 6×3 input, the output pixel `(4, 4)`
lies in the bottom half and outside all eleven scaled left-limb destination
rectangles, yet it is opaque red, not transparent — at this non-integer HD
ratio the left-arm back overlay write spills outside its (degenerate)
destination rectangle. -/
theorem C10_counterexample :
    imgC10.width = 2 * imgC10.height ∧
    imgC10.height ≤ 4 ∧
    (∀ r ∈ leftDestRects imgC10, ¬ inRect r 4 4) ∧
    convertedPix imgC10 4 4 = some ⟨255, 0, 0, 255⟩ := by
  refine ⟨rfl, by decide, ?_, ?_⟩
  · rw [leftDestRects_div]
    decide
  · have hconv : single2double_image imgC10
        = Except.ok (applyOps (baseCanvas imgC10) (overlayOps imgC10)) := by
      rw [single2double_image, if_neg (by decide)]
    simp only [convertedPix, hconv, overlayOps_div]
    decide

/- ### C1: mirror symmetry -/

set_option maxHeartbeats 1600000 in
/-- C1 amended: for valid inputs whose width is a multiple of 64 (integer HD
ratio, where the scaled source and destination rectangles of every sub-face
have equal dimensions), and for every source pixel that is fully opaque
(alpha 255) or fully transparent (alpha 0) — the cases the overlay's alpha
compositing handles byte-exactly — the destination patch of every sub-face
is the exact horizontal reversal of its source patch, except that source
pixels with zero alpha land as fully transparent black (the overlay is an
alpha blend onto the transparent canvas, not a raw copy; pixels with
intermediate alpha are alpha-composited and need not land byte-for-byte). -/
theorem C1_mirror_symmetry (k : Nat) (hk : 0 < k) (img : Image)
    (hw : img.width = 64 * k) (hh : img.height = 32 * k)
    (p : Rect × Rect) (hp : p ∈ subFacePairs) (i j : Nat)
    (hi : i < (scaledSrc img p).x1 - (scaledSrc img p).x0)
    (hj : j < (scaledSrc img p).y1 - (scaledSrc img p).y0)
    (ha : (img.pix ((scaledSrc img p).x0 + i) ((scaledSrc img p).y0 + j)).a = 0 ∨
          (img.pix ((scaledSrc img p).x0 + i) ((scaledSrc img p).y0 + j)).a = 255)
    (out : Image) (hout : single2double_image img = Except.ok out) :
    out.pix ((scaledDest img p).x0 + ((scaledSrc img p).x1 - (scaledSrc img p).x0 - 1 - i))
        ((scaledDest img p).y0 + j)
      = (if (img.pix ((scaledSrc img p).x0 + i) ((scaledSrc img p).y0 + j)).a = 0
         then Rgba.transparent
         else img.pix ((scaledSrc img p).x0 + i) ((scaledSrc img p).y0 + j)) := by
  rw [single2double_image, if_neg (by omega)] at hout
  obtain rfl : applyOps (baseCanvas img) (overlayOps img) = out := Except.ok.inj hout
  rw [overlayOps_div]
  have hblend : ∀ a b c d : Nat, a = c → b = d →
      ((img.pix c d).a = 0 ∨ (img.pix c d).a = 255) →
      Rgba.blend Rgba.transparent (img.pix a b)
        = (if (img.pix c d).a = 0 then Rgba.transparent else img.pix c d) := by
    rintro a b c d rfl rfl h
    exact blend_transparent_exact _ h
  simp only [subFacePairs] at hp
  fin_cases hp <;>
  · simp only [scaledSrc, scaledDest, scale_rect_div,
      RIGHT_LEG_OUTSIDE_RANGE, RIGHT_LEG_TOP_FRONT_RANGE, RIGHT_LEG_BUTTOM_RANGE,
      RIGHT_LEG_INSIDE_RANGE, RIGHT_LEG_BACK_RANGE,
      RIGHT_ARM_OUTSIDE_RANGE, RIGHT_ARM_TOP_RANGE, RIGHT_ARM_FRONT_RANGE,
      RIGHT_ARM_BUTTOM_RANGE, RIGHT_ARM_INSIDE_RANGE, RIGHT_ARM_BACK_RANGE,
      LEFT_LEG_OUTSIDE_RANGE, LEFT_LEG_TOP_FRONT_RANGE, LEFT_LEG_BUTTOM_RANGE,
      LEFT_LEG_INSIDE_RANGE, LEFT_LEG_BACK_RANGE,
      LEFT_ARM_OUTSIDE_RANGE, LEFT_ARM_TOP_RANGE, LEFT_ARM_FRONT_RANGE,
      LEFT_ARM_BUTTOM_RANGE, LEFT_ARM_INSIDE_RANGE, LEFT_ARM_BACK_RANGE] at hi hj ha ⊢
    simp only [applyOps, List.foldl_cons, List.foldl_nil]
    simp (disch := (try simp only [overlay_width, overlay_height, baseCanvas_width,
        baseCanvas_height, flip_horizontal, crop]); omega) only
      [overlay_pix_out_d, overlay_pix_hit_d, baseCanvas_pix_out_d,
       flip_horizontal, crop]
    apply hblend
    · omega
    · omega
    · exact ha

/-- C1 witness: mirror symmetry for the right-arm outside sub-face at the
64×32 test image, column 0, row 0. -/
theorem C1_mirror_symmetry_witness :
    (applyOps (baseCanvas img64) (overlayOps img64)).pix
        ((scaledDest img64 (RIGHT_ARM_OUTSIDE_RANGE, LEFT_ARM_OUTSIDE_RANGE)).x0
          + ((scaledSrc img64 (RIGHT_ARM_OUTSIDE_RANGE, LEFT_ARM_OUTSIDE_RANGE)).x1
              - (scaledSrc img64 (RIGHT_ARM_OUTSIDE_RANGE, LEFT_ARM_OUTSIDE_RANGE)).x0 - 1 - 0))
        ((scaledDest img64 (RIGHT_ARM_OUTSIDE_RANGE, LEFT_ARM_OUTSIDE_RANGE)).y0 + 0)
      = (if (img64.pix ((scaledSrc img64 (RIGHT_ARM_OUTSIDE_RANGE, LEFT_ARM_OUTSIDE_RANGE)).x0 + 0)
              ((scaledSrc img64 (RIGHT_ARM_OUTSIDE_RANGE, LEFT_ARM_OUTSIDE_RANGE)).y0 + 0)).a = 0
         then Rgba.transparent
         else img64.pix ((scaledSrc img64 (RIGHT_ARM_OUTSIDE_RANGE, LEFT_ARM_OUTSIDE_RANGE)).x0 + 0)
              ((scaledSrc img64 (RIGHT_ARM_OUTSIDE_RANGE, LEFT_ARM_OUTSIDE_RANGE)).y0 + 0)) :=
  C1_mirror_symmetry 1 (by decide) img64 (by decide) (by decide)
    (RIGHT_ARM_OUTSIDE_RANGE, LEFT_ARM_OUTSIDE_RANGE) (by decide) 0 0
    (by rw [scaledSrc, scale_rect_div]; decide)
    (by rw [scaledSrc, scale_rect_div]; decide)
    (by rw [scaledSrc, scale_rect_div]; decide)
    (applyOps (baseCanvas img64) (overlayOps img64))
    (by rw [single2double_image, if_neg (by decide)])

/-- The 20×10 input for the first half of the C1 counterexample: opaque red
at `(12, 6)` (the whole scaled right-arm outside region) and opaque blue at
`(13, 6)` (inside the scaled right-arm front region). -/
def imgC1a : Image :=
  ⟨20, 10, fun x y =>
    if x = 12 ∧ y = 6 then ⟨255, 0, 0, 255⟩
    else if x = 13 ∧ y = 6 then ⟨0, 0, 255, 255⟩
    else Rgba.transparent⟩

/-- The 64×32 input for the second half of the C1 counterexample: a pixel
with zero alpha but nonzero red channel at `(40, 20)`, the top-left corner
of the right-arm outside region. -/
def imgC1b : Image :=
  ⟨64, 32, fun x y => if x = 40 ∧ y = 20 then ⟨255, 0, 0, 0⟩ else Rgba.transparent⟩

/-- C1 counterexample, two independent failures of the claim as stated.
First, at the valid 20×10 input (non-integer HD ratio 20/64) the right-arm
outside sub-face has scaled source `(12,6)-(13,10)` and scaled destination
`(12,16)-(13,20)`, so the claim demands `output[12,16] = input[12,6]`
(opaque red); but the later right-arm front overlay write spills over and
overwrites that pixel with opaque blue. Second, at the valid 64×32 input the
claim demands `output[43,52] = input[40,20]` (a zero-alpha red pixel); but
the alpha-blending overlay leaves the destination fully transparent. -/
theorem C1_counterexample :
    (imgC1a.width = 2 * imgC1a.height ∧
     (RIGHT_ARM_OUTSIDE_RANGE, LEFT_ARM_OUTSIDE_RANGE) ∈ subFacePairs ∧
     scaledSrc imgC1a (RIGHT_ARM_OUTSIDE_RANGE, LEFT_ARM_OUTSIDE_RANGE) = ⟨12, 6, 13, 10⟩ ∧
     scaledDest imgC1a (RIGHT_ARM_OUTSIDE_RANGE, LEFT_ARM_OUTSIDE_RANGE) = ⟨12, 16, 13, 20⟩ ∧
     imgC1a.pix (12 + 0) (6 + 0) = ⟨255, 0, 0, 255⟩ ∧
     convertedPix imgC1a (12 + (13 - 12 - 1 - 0)) (16 + 0) = some ⟨0, 0, 255, 255⟩ ∧
     some (imgC1a.pix (12 + 0) (6 + 0)) ≠ (some ⟨0, 0, 255, 255⟩ : Option Rgba)) ∧
    (imgC1b.width = 2 * imgC1b.height ∧
     scaledSrc imgC1b (RIGHT_ARM_OUTSIDE_RANGE, LEFT_ARM_OUTSIDE_RANGE) = ⟨40, 20, 44, 32⟩ ∧
     scaledDest imgC1b (RIGHT_ARM_OUTSIDE_RANGE, LEFT_ARM_OUTSIDE_RANGE) = ⟨40, 52, 44, 64⟩ ∧
     imgC1b.pix (40 + 0) (20 + 0) = ⟨255, 0, 0, 0⟩ ∧
     convertedPix imgC1b (40 + (44 - 40 - 1 - 0)) (52 + 0) = some Rgba.transparent ∧
     some (imgC1b.pix (40 + 0) (20 + 0)) ≠ (some Rgba.transparent : Option Rgba)) := by
  have hconva : single2double_image imgC1a
      = Except.ok (applyOps (baseCanvas imgC1a) (overlayOps imgC1a)) := by
    rw [single2double_image, if_neg (by decide)]
  have hconvb : single2double_image imgC1b
      = Except.ok (applyOps (baseCanvas imgC1b) (overlayOps imgC1b)) := by
    rw [single2double_image, if_neg (by decide)]
  refine ⟨⟨rfl, by decide, ?_, ?_, by decide, ?_, by decide⟩,
          ⟨rfl, ?_, ?_, by decide, ?_, by decide⟩⟩
  · rw [scaledSrc, scale_rect_div]; decide
  · rw [scaledDest, scale_rect_div]; decide
  · simp only [convertedPix, hconva, overlayOps_div]
    decide
  · rw [scaledSrc, scale_rect_div]; decide
  · rw [scaledDest, scale_rect_div]; decide
  · simp only [convertedPix, hconvb, overlayOps_div]
    decide

/-- C10 witness: background transparency at the 64×32 test image, pixel
`(0, 63)`. -/
theorem C10_background_transparent_witness :
    (applyOps (baseCanvas img64) (overlayOps img64)).pix 0 63 = Rgba.transparent :=
  C10_background_transparent 1 (by decide) img64 (by decide) (by decide) 0 63 (by decide)
    (by rw [leftDestRects_div]; decide)
    (applyOps (baseCanvas img64) (overlayOps img64))
    (by rw [single2double_image, if_neg (by decide)])

end Eidolon
